import Mathlib

/-!
Shallow embedding of the goRedis server (src/main.go: RESP codec;
src/unnamed/part_000: RedisServer, command dispatch, connection loop).
The wire stream and all Go strings are modelled as `List Char`
(one `Char` per Go rune; all protocol-relevant text here is ASCII,
where Go byte counts and rune counts agree).
-/

namespace GoRedis

/-- Characters of a Lean string literal, used to write Go string literals. -/
def chars (s : String) : List Char := s.data

/-- Go unicode.IsSpace on a rune, as used by strings.TrimSpace:
'\t', '\n', '\v', '\f', '\r', ' ', U+0085, U+00A0 and the
Unicode White_Space code points. -/
def goIsSpace (c : Char) : Bool :=
  c.toNat = 9 || c.toNat = 10 || c.toNat = 11 || c.toNat = 12 ||
  c.toNat = 13 || c.toNat = 32 || c.toNat = 133 || c.toNat = 160 ||
  c.toNat = 5760 || (decide (8192 ≤ c.toNat) && decide (c.toNat ≤ 8202)) ||
  c.toNat = 8232 || c.toNat = 8233 || c.toNat = 8239 || c.toNat = 8287 ||
  c.toNat = 12288

/-- Right-trim of Go whitespace (helper for `trimSpace`). -/
def trimRight : List Char → List Char
  | [] => []
  | c :: t =>
    match trimRight t with
    | [] => if goIsSpace c then [] else [c]
    | r => c :: r

/-- Go strings.TrimSpace: strip leading and trailing whitespace runes. -/
def trimSpace (s : List Char) : List Char :=
  trimRight (s.dropWhile goIsSpace)

/-- Go bufio.Reader.ReadString('\n'): the consumed prefix up to and
including the first '\n' together with the remaining stream, or `none`
(io.EOF) when no '\n' occurs before the end of the stream (in which case
the whole stream is consumed). -/
def readLine : List Char → Option (List Char × List Char)
  | [] => none
  | c :: r =>
    if c = '\n' then some ([c], r)
    else
      match readLine r with
      | some (line, rest) => some (c :: line, rest)
      | none => none

/-- Go io.ReadFull into a buffer of length n: exactly n leading
characters and the remaining stream, or `none` when fewer are available. -/
def readN : Nat → List Char → Option (List Char × List Char)
  | 0, s => some ([], s)
  | _ + 1, [] => none
  | n + 1, c :: r =>
    match readN n r with
    | some (taken, rest) => some (c :: taken, rest)
    | none => none

/-- Decimal digit accumulator used by `atoi`. -/
def digitsVal : Nat → List Char → Option Nat
  | acc, [] => some acc
  | acc, c :: r =>
    if 48 ≤ c.toNat ∧ c.toNat ≤ 57 then
      digitsVal (acc * 10 + (c.toNat - 48)) r
    else none

/-- Go strconv.Atoi / strconv.ParseInt base 10: optional sign then at
least one digit, nothing else. The 64-bit range check of the Go function
is not modelled (lengths are unbounded here), so its out-of-range
failure mode does not arise. -/
def atoi (s : List Char) : Option Int :=
  match s with
  | [] => none
  | '+' :: r => if r = [] then none else (digitsVal 0 r).map (fun n => (n : Int))
  | '-' :: r => if r = [] then none else (digitsVal 0 r).map (fun n => -(n : Int))
  | _ => (digitsVal 0 s).map (fun n => (n : Int))

/-- Decimal digits of a Nat, as written by Go strconv.Itoa.
The first argument is recursion fuel (any value above the digit count
gives the digits; `natToChars` supplies enough). -/
def natToCharsAux : Nat → Nat → List Char → List Char
  | 0, _, acc => acc
  | f + 1, n, acc =>
    if n = 0 then acc
    else natToCharsAux f (n / 10) (Char.ofNat (48 + n % 10) :: acc)

/-- Go strconv.Itoa on a nonnegative number. -/
def natToChars (n : Nat) : List Char :=
  if n = 0 then ['0'] else natToCharsAux (n + 1) n []

/-- Go strconv.FormatInt base 10. -/
def intToChars (n : Int) : List Char :=
  if n < 0 then '-' :: natToChars n.natAbs else natToChars n.toNat

/-- RESP type tag constant from src/main.go. -/
def RESP_SIMPLE_STRING : Char := '+'

/-- RESP type tag constant from src/main.go. -/
def RESP_ERROR : Char := '-'

/-- RESP type tag constant from src/main.go. -/
def RESP_INTEGER : Char := ':'

/-- RESP type tag constant from src/main.go. -/
def RESP_BULK_STRING : Char := '$'

/-- RESP type tag constant from src/main.go. -/
def RESP_ARRAY : Char := '*'

/-- Mirror of the Go struct RESPValue {Type, Str, Num, IsNull, Array}
from src/main.go: a single record whose fields all coexist, exactly as
in the source (not a tagged union). -/
inductive RESPValue : Type where
  | mk : Char → List Char → Int → Bool → List RESPValue → RESPValue

/-- The Type field of a RESPValue. -/
def RESPValue.type : RESPValue → Char
  | .mk t _ _ _ _ => t

/-- The Str field of a RESPValue. -/
def RESPValue.str : RESPValue → List Char
  | .mk _ s _ _ _ => s

/-- The Num field of a RESPValue. -/
def RESPValue.num : RESPValue → Int
  | .mk _ _ n _ _ => n

/-- The IsNull field of a RESPValue. -/
def RESPValue.isNull : RESPValue → Bool
  | .mk _ _ _ b _ => b

/-- The Array field of a RESPValue. -/
def RESPValue.array : RESPValue → List RESPValue
  | .mk _ _ _ _ a => a

/-- Go NewRESPValue: all fields zero except the type tag. -/
def NewRESPValue (respType : Char) : RESPValue :=
  .mk respType [] 0 false []

mutual

/-- Go (v *RESPValue).SerializeRESP from src/main.go, byte for byte:
note that the RESP_ARRAY case writes len(v.Array) and the elements
without consulting v.IsNull, and that a value whose Type is none of the
five tags serializes to the empty buffer (no default switch case). -/
def serializeRESP : RESPValue → List Char
  | .mk t str num isNull arr =>
    if t = RESP_SIMPLE_STRING then
      RESP_SIMPLE_STRING :: (str ++ chars ("\r\n"))
    else if t = RESP_ERROR then
      RESP_ERROR :: (str ++ chars ("\r\n"))
    else if t = RESP_INTEGER then
      RESP_INTEGER :: (intToChars num ++ chars ("\r\n"))
    else if t = RESP_BULK_STRING then
      if isNull then RESP_BULK_STRING :: chars ("-1\r\n")
      else
        RESP_BULK_STRING ::
          (natToChars str.length ++ chars ("\r\n") ++ str ++ chars ("\r\n"))
    else if t = RESP_ARRAY then
      RESP_ARRAY :: (natToChars arr.length ++ chars ("\r\n") ++ serializeList arr)
    else []

/-- The element loop of SerializeRESP: each element's output in order. -/
def serializeList : List RESPValue → List Char
  | [] => []
  | v :: vs => serializeRESP v ++ serializeList vs

end

/-- Outcome of Go ParseRESP on a stream: a value with the unconsumed
remainder, an error message (err.Error()) with the unconsumed remainder
of the reader, the bare io.EOF returned when ReadString finds no '\n'
(stream fully consumed), a runtime panic (make with negative length), or
fuel exhaustion of this embedding (unreachable at the fuel
`parseRESP` supplies). -/
inductive ParseResult : Type where
  | ok (v : RESPValue) (rest : List Char)
  | err (msg : List Char) (rest : List Char)
  | eof
  | panic
  | fuelOut

/-- Outcome of the array-element loop inside ParseRESP. -/
inductive ElemsResult : Type where
  | ok (vs : List RESPValue) (rest : List Char)
  | err (msg : List Char) (rest : List Char)
  | panic
  | fuelOut

/-- fmt.Errorf("failed to parse array element %d: %v", i, err). -/
def elemErrMsg (i : Nat) (m : List Char) : List Char :=
  chars ("failed to parse array element ") ++ natToChars i ++ chars (": ") ++ m

mutual

/-- Go ParseRESP from src/main.go, over an explicit stream. Fuel only
bounds the recursion of this embedding; every run from `parseRESP` has
enough. The strconv error detail interpolated by fmt.Errorf is
abbreviated to "invalid syntax". make([]byte, n) / make([]*RESPValue, n)
with n < 0 is a Go runtime panic, modelled by `ParseResult.panic`. -/
def parseRESPF : Nat → List Char → ParseResult
  | 0, _ => .fuelOut
  | f + 1, s =>
    match readLine s with
    | none => .eof
    | some (line0, rest) =>
      match trimSpace line0 with
      | [] => .err (chars ("empty line")) rest
      | t :: content =>
        if t = RESP_SIMPLE_STRING then
          .ok (.mk t content 0 false []) rest
        else if t = RESP_ERROR then
          .ok (.mk t content 0 false []) rest
        else if t = RESP_INTEGER then
          match atoi content with
          | none => .err (chars ("invalid integer: invalid syntax")) rest
          | some n => .ok (.mk t [] n false []) rest
        else if t = RESP_BULK_STRING then
          match atoi content with
          | none => .err (chars ("invalid bulk string length: invalid syntax")) rest
          | some len =>
            if len = -1 then .ok (.mk t [] 0 true []) rest
            else if len < 0 then .panic
            else
              match readN len.toNat rest with
              | none =>
                .err (chars ("failed to read bulk string: ") ++
                  (if rest = [] then chars ("EOF") else chars ("unexpected EOF"))) []
              | some (data, r1) =>
                match readLine r1 with
                | none => .err (chars ("failed to read bulk string terminator: EOF")) []
                | some (_, r2) => .ok (.mk t data 0 false []) r2
        else if t = RESP_ARRAY then
          match atoi content with
          | none => .err (chars ("invalid array length: invalid syntax")) rest
          | some count =>
            if count = -1 then .ok (.mk t [] 0 true []) rest
            else if count < 0 then .panic
            else
              match parseElemsF f count.toNat 0 rest with
              | .ok vs r => .ok (.mk t [] 0 false vs) r
              | .err m r => .err m r
              | .panic => .panic
              | .fuelOut => .fuelOut
        else .err (chars ("unknown RESP type: ") ++ [t]) rest

/-- The element loop inside the RESP_ARRAY case of ParseRESP: parse the
declared number of elements in order; a failing element aborts the loop
with its index interpolated into the message (the bare io.EOF of an
element is wrapped too, so it is no longer the string "EOF"). -/
def parseElemsF : Nat → Nat → Nat → List Char → ElemsResult
  | 0, _, _, _ => .fuelOut
  | _ + 1, 0, _, s => .ok [] s
  | f + 1, n + 1, i, s =>
    match parseRESPF f s with
    | .ok v r =>
      match parseElemsF f n (i + 1) r with
      | .ok vs r2 => .ok (v :: vs) r2
      | other => other
    | .err m r => .err (elemErrMsg i m) r
    | .eof => .err (elemErrMsg i (chars ("EOF"))) []
    | .panic => .panic
    | .fuelOut => .fuelOut

end

/-- Go ParseRESP on a stream, with fuel ample for the stream. -/
def parseRESP (s : List Char) : ParseResult :=
  parseRESPF (2 * s.length + 2) s

/-- The store field of RedisServer (src/unnamed/part_000): a Go
map[string]string, modelled as an association list with unique keys
(`storeSet` replaces in place, `storeGet` takes the first match). -/
def Store : Type := List (List Char × List Char)

/-- Go map assignment rs.store[key] = value: replace the binding if the
key is present, otherwise add it. -/
def storeSet : Store → List Char → List Char → Store
  | [], k, v => [(k, v)]
  | (k0, v0) :: t, k, v =>
    if k0 = k then (k, v) :: t else (k0, v0) :: storeSet t k v

/-- Go map lookup value, exists := rs.store[key]. -/
def storeGet : Store → List Char → Option (List Char)
  | [], _ => none
  | (k0, v0) :: t, k => if k0 = k then some v0 else storeGet t k

/-- The two-line Go idiom NewRESPValue(RESP_ERROR); .Str = msg. -/
def errV (msg : List Char) : RESPValue :=
  .mk RESP_ERROR msg 0 false []

/-- Go strings.ToUpper. Lean's Char.toUpper maps the ASCII letters; the
command names compared against are all ASCII, where the two agree. -/
def toUpperGo (s : List Char) : List Char :=
  s.map Char.toUpper

/-- Go (rs *RedisServer).handlePing. -/
def handlePing : RESPValue :=
  .mk RESP_SIMPLE_STRING (chars ("PONG")) 0 false []

/-- Go (rs *RedisServer).handleEcho: only fewer than two elements is an
arity error; elements beyond Array[1] are ignored. -/
def handleEcho (command : RESPValue) : RESPValue :=
  match command.array with
  | _ :: a1 :: _ =>
    if a1.type ≠ RESP_BULK_STRING then
      errV (chars ("ERR Protocol error: expected bulk string for echo argument"))
    else .mk RESP_BULK_STRING a1.str 0 false []
  | _ => errV (chars ("ERR wrong number of arguments for 'echo' command"))

/-- Go (rs *RedisServer).handleSet: the store write is bracketed by
rs.mutex.Lock()/Unlock() in the source and is therefore modelled as one
atomic store update. Elements beyond Array[2] are ignored. -/
def handleSet (st : Store) (command : RESPValue) : RESPValue × Store :=
  match command.array with
  | _ :: a1 :: a2 :: _ =>
    if a1.type ≠ RESP_BULK_STRING ∨ a2.type ≠ RESP_BULK_STRING then
      (errV (chars ("ERR Protocol error: expected bulk string for key and value")), st)
    else
      (.mk RESP_SIMPLE_STRING (chars ("OK")) 0 false [], storeSet st a1.str a2.str)
  | _ => (errV (chars ("ERR wrong number of arguments for 'set' command")), st)

/-- Go (rs *RedisServer).handleGet: the store read is bracketed by
rs.mutex.RLock()/RUnlock() in the source and is therefore modelled as
one atomic store lookup. An absent key yields a null BulkString. -/
def handleGet (st : Store) (command : RESPValue) : RESPValue :=
  match command.array with
  | _ :: a1 :: _ =>
    if a1.type ≠ RESP_BULK_STRING then
      errV (chars ("ERR Protocol error: expected bulk string for key"))
    else
      match storeGet st a1.str with
      | none => .mk RESP_BULK_STRING [] 0 true []
      | some value => .mk RESP_BULK_STRING value 0 false []
  | _ => errV (chars ("ERR wrong number of arguments for 'get' command"))

/-- Go (rs *RedisServer).handleQuit: just the SimpleString "OK"; it does
not signal anything to the connection loop. -/
def handleQuit : RESPValue :=
  .mk RESP_SIMPLE_STRING (chars ("OK")) 0 false []

/-- Go (rs *RedisServer).handleInfo. -/
def handleInfo : RESPValue :=
  .mk RESP_BULK_STRING (chars ("# Server\r\nredis_version:0.1.0\r\n")) 0 false []

/-- Go (rs *RedisServer).processCommand from src/unnamed/part_000,
returning the reply together with the (possibly updated) store. -/
def processCommand (st : Store) (command : RESPValue) : RESPValue × Store :=
  if command.type ≠ RESP_ARRAY ∨ command.isNull then
    (errV (chars ("ERR Protocol error: expected array")), st)
  else if command.array.length = 0 then
    (errV (chars ("ERR empty command")), st)
  else
    match command.array with
    | [] => (errV (chars ("ERR empty command")), st)
    | cmdValue :: _ =>
      if cmdValue.type ≠ RESP_BULK_STRING then
        (errV (chars ("ERR Protocol error: expected bulk string for command")), st)
      else
        let cmd := toUpperGo cmdValue.str
        if cmd = chars ("PING") then (handlePing, st)
        else if cmd = chars ("ECHO") then (handleEcho command, st)
        else if cmd = chars ("SET") then handleSet st command
        else if cmd = chars ("GET") then (handleGet st command, st)
        else if cmd = chars ("QUIT") then (handleQuit, st)
        else if cmd = chars ("INFO") then (handleInfo, st)
        else (errV (chars ("ERR unknown command '") ++ cmd ++ [Char.ofNat 39]), st)

/-- One iteration of the for loop in Go handleConnection
(src/unnamed/part_000): closed with no reply when ParseRESP returns an
error whose Error() is exactly "EOF"; on any other parse error an
"ERR "-prefixed Error value is written and the loop goes on with the
reader where it stands; on success the processCommand reply is written
and the loop goes on. A Go runtime panic in ParseRESP crashes the
handler (there is no recover); `fuelStuck` is the unreachable fuel
exhaustion of the embedding. -/
inductive StepResult : Type where
  | closed
  | reply (bytes : List Char) (st : Store) (rest : List Char)
  | crashed
  | fuelStuck

/-- The body of the for loop in Go handleConnection, on the current
store and the unconsumed stream. -/
def connStep (st : Store) (s : List Char) : StepResult :=
  match parseRESP s with
  | .eof => .closed
  | .err m rest => .reply (serializeRESP (errV (chars ("ERR ") ++ m))) st rest
  | .ok v rest =>
    match processCommand st v with
    | (response, st2) => .reply (serializeRESP response) st2 rest
  | .panic => .crashed
  | .fuelOut => .fuelStuck

/-- How a run of the connection loop ended. -/
inductive LoopEnd : Type where
  | closed
  | crashed
  | fuelStuck

/-- The for loop of Go handleConnection, iterated with fuel: the
sequence of replies written to the socket and how the loop ended. -/
def connLoopF : Nat → Store → List Char → List (List Char) × LoopEnd
  | 0, _, _ => ([], .fuelStuck)
  | f + 1, st, s =>
    match connStep st s with
    | .closed => ([], .closed)
    | .crashed => ([], .crashed)
    | .fuelStuck => ([], .fuelStuck)
    | .reply r st2 rest =>
      match connLoopF f st2 rest with
      | (rs, e) => (r :: rs, e)

/-- Go handleConnection on a whole client stream, with fuel ample for
the stream. -/
def connLoop (st : Store) (s : List Char) : List (List Char) × LoopEnd :=
  connLoopF (s.length + 1) st s

/-! Helper lemmas about the stream and string primitives. -/

theorem readLine_append (a b : List Char) (h : '\n' ∉ a) :
    readLine (a ++ '\n' :: b) = some (a ++ ['\n'], b) := by
  induction a with
  | nil => simp [readLine]
  | cons c t ih =>
    have h2 := fun x => h (List.mem_cons.mpr x)
    have hc : ¬c = '\n' := fun e => h2 (Or.inl e.symm)
    have ht : '\n' ∉ t := fun m => h2 (Or.inr m)
    simp [readLine, hc, ih ht]

theorem readLine_eq_none (a : List Char) (h : '\n' ∉ a) : readLine a = none := by
  induction a with
  | nil => rfl
  | cons c t ih =>
    have h2 := fun x => h (List.mem_cons.mpr x)
    have hc : ¬c = '\n' := fun e => h2 (Or.inl e.symm)
    have ht : '\n' ∉ t := fun m => h2 (Or.inr m)
    simp [readLine, hc, ih ht]

theorem readN_exact (a b : List Char) : readN a.length (a ++ b) = some (a, b) := by
  induction a with
  | nil => simp [readN]
  | cons c t ih => simp [readN, ih]

theorem readN_short (n : Nat) (b : List Char) (h : b.length < n) : readN n b = none := by
  induction b generalizing n with
  | nil =>
    cases n with
    | zero => simp at h
    | succ m => simp [readN]
  | cons c t ih =>
    cases n with
    | zero => simp at h
    | succ m =>
      simp only [List.length_cons, Nat.succ_lt_succ_iff] at h
      simp [readN, ih m h]

theorem trimRight_cons (c : Char) (t : List Char) (h : goIsSpace c = false) :
    trimRight (c :: t) = c :: trimRight t := by
  cases ht : trimRight t with
  | nil => simp [trimRight, ht, h]
  | cons x xs => simp [trimRight, ht]

theorem trimRight_append_space (l : List Char) (c : Char) (h : goIsSpace c = true) :
    trimRight (l ++ [c]) = trimRight l := by
  induction l with
  | nil => simp [trimRight, h]
  | cons x t ih =>
    simp only [List.cons_append, trimRight, List.append_eq, ih]

theorem trimSpace_cons (c : Char) (l : List Char) (h : goIsSpace c = false) :
    trimSpace (c :: l) = c :: trimRight l := by
  unfold trimSpace
  simp only [List.dropWhile, h]
  exact trimRight_cons c l h

theorem storeGet_storeSet_same (st : Store) (k v : List Char) :
    storeGet (storeSet st k v) k = some v := by
  induction st with
  | nil => simp [storeSet, storeGet]
  | cons p t ih =>
    obtain ⟨k0, v0⟩ := p
    by_cases h : k0 = k
    · simp [storeSet, storeGet, h]
    · simp [storeSet, storeGet, h, ih]

/-! The claims. -/

/-- Claim C1. The round-trip law Decode(Encode(v)) = v fails on the
null Array: SerializeRESP ignores IsNull for arrays and emits the
empty-array framing, which ParseRESP decodes back to a non-null empty
Array, losing the null-vs-empty distinction. -/
theorem c1_roundtrip_fails_on_null_array :
    parseRESP (serializeRESP (.mk RESP_ARRAY [] 0 true [])) =
      .ok (.mk RESP_ARRAY [] 0 false []) [] ∧
    RESPValue.mk RESP_ARRAY [] 0 false [] ≠ RESPValue.mk RESP_ARRAY [] 0 true [] := by
  refine ⟨rfl, fun h => ?_⟩
  simp at h

/-- Claim C2. After the SimpleString "OK" reply to QUIT, the connection
loop does not close: handleConnection has no break for QUIT, so a PING
sent after the QUIT exchange is still served with PONG. -/
theorem c2_connection_serves_request_after_quit :
    connLoop []
      (serializeRESP (.mk RESP_ARRAY [] 0 false
          [.mk RESP_BULK_STRING (chars ("QUIT")) 0 false []]) ++
        serializeRESP (.mk RESP_ARRAY [] 0 false
          [.mk RESP_BULK_STRING (chars ("PING")) 0 false []])) =
      ([chars ("+OK\r\n"), chars ("+PONG\r\n")], .closed) := rfl

/-- Claim C3. Encode of a null Array does not produce the tag byte
followed by "-1": the RESP_ARRAY case of SerializeRESP never consults
IsNull and writes the element count 0 of the nil slice instead. -/
theorem c3_null_array_encodes_as_zero_count :
    serializeRESP (.mk RESP_ARRAY [] 0 true []) = chars ("*0\r\n") ∧
    chars ("*0\r\n") ≠ chars ("*-1\r\n") :=
  ⟨rfl, by decide⟩

/-- Claim C4, counterexample: ECHO with two arguments is not an arity
error; handleEcho only rejects fewer than one argument, so
["ECHO", "a", "x"] yields the BulkString "a", not an Error. -/
theorem c4_echo_extra_args_not_rejected :
    processCommand [] (.mk RESP_ARRAY [] 0 false
        [.mk RESP_BULK_STRING (chars ("ECHO")) 0 false [],
          .mk RESP_BULK_STRING (chars ("a")) 0 false [],
          .mk RESP_BULK_STRING (chars ("x")) 0 false []]) =
      (.mk RESP_BULK_STRING (chars ("a")) 0 false [], []) ∧
    (RESPValue.mk RESP_BULK_STRING (chars ("a")) 0 false []).type ≠ RESP_ERROR :=
  ⟨rfl, by decide⟩

/-- Claim C4, amended: the dispatcher accepts ECHO whenever at least one
argument is present and the first argument is a BulkString, returning a
BulkString equal to that argument and ignoring any extra arguments;
["ECHO"] alone yields the wrong-number-of-arguments Error. -/
theorem c4_echo_arity_amended (st : Store) (m : List Char) (extra : List RESPValue) :
    processCommand st (.mk RESP_ARRAY [] 0 false
        (.mk RESP_BULK_STRING (chars ("ECHO")) 0 false [] ::
          .mk RESP_BULK_STRING m 0 false [] :: extra)) =
      (.mk RESP_BULK_STRING m 0 false [], st) ∧
    processCommand st (.mk RESP_ARRAY [] 0 false
        [.mk RESP_BULK_STRING (chars ("ECHO")) 0 false []]) =
      (errV (chars ("ERR wrong number of arguments for 'echo' command")), st) :=
  ⟨rfl, rfl⟩

/-- Claim C6. Dispatching GET on an absent key returns the null
BulkString, while dispatching GET after SET of the empty string returns
the non-null empty BulkString, and the two reply values differ. -/
theorem c6_get_null_vs_empty (st st2 : Store) (k : List Char)
    (habs : storeGet st k = none) :
    processCommand st (.mk RESP_ARRAY [] 0 false
        [.mk RESP_BULK_STRING (chars ("GET")) 0 false [],
          .mk RESP_BULK_STRING k 0 false []]) =
      (.mk RESP_BULK_STRING [] 0 true [], st) ∧
    processCommand
        (processCommand st2 (.mk RESP_ARRAY [] 0 false
          [.mk RESP_BULK_STRING (chars ("SET")) 0 false [],
            .mk RESP_BULK_STRING k 0 false [],
            .mk RESP_BULK_STRING [] 0 false []])).2
        (.mk RESP_ARRAY [] 0 false
          [.mk RESP_BULK_STRING (chars ("GET")) 0 false [],
            .mk RESP_BULK_STRING k 0 false []]) =
      (.mk RESP_BULK_STRING [] 0 false [], storeSet st2 k []) ∧
    RESPValue.mk RESP_BULK_STRING [] 0 true [] ≠ RESPValue.mk RESP_BULK_STRING [] 0 false [] := by
  have bridge : ∀ (s : Store),
      processCommand s (.mk RESP_ARRAY [] 0 false
          [.mk RESP_BULK_STRING (chars ("GET")) 0 false [],
            .mk RESP_BULK_STRING k 0 false []]) =
        ((match storeGet s k with
          | none => RESPValue.mk RESP_BULK_STRING [] 0 true []
          | some value => RESPValue.mk RESP_BULK_STRING value 0 false []), s) :=
    fun s => rfl
  refine ⟨?_, ?_, fun h => by simp at h⟩
  · rw [bridge st, habs]
  · have hset : (processCommand st2 (.mk RESP_ARRAY [] 0 false
        [.mk RESP_BULK_STRING (chars ("SET")) 0 false [],
          .mk RESP_BULK_STRING k 0 false [],
          .mk RESP_BULK_STRING [] 0 false []])).2 = storeSet st2 k [] := rfl
    rw [hset, bridge (storeSet st2 k []), storeGet_storeSet_same]

/-- Claim C6, witness: the empty store with key "x". -/
theorem c6_get_null_vs_empty_witness :
    processCommand [] (.mk RESP_ARRAY [] 0 false
        [.mk RESP_BULK_STRING (chars ("GET")) 0 false [],
          .mk RESP_BULK_STRING (chars ("x")) 0 false []]) =
      (.mk RESP_BULK_STRING [] 0 true [], []) ∧
    processCommand
        (processCommand [] (.mk RESP_ARRAY [] 0 false
          [.mk RESP_BULK_STRING (chars ("SET")) 0 false [],
            .mk RESP_BULK_STRING (chars ("x")) 0 false [],
            .mk RESP_BULK_STRING [] 0 false []])).2
        (.mk RESP_ARRAY [] 0 false
          [.mk RESP_BULK_STRING (chars ("GET")) 0 false [],
            .mk RESP_BULK_STRING (chars ("x")) 0 false []]) =
      (.mk RESP_BULK_STRING [] 0 false [], storeSet [] (chars ("x")) []) ∧
    RESPValue.mk RESP_BULK_STRING [] 0 true [] ≠ RESPValue.mk RESP_BULK_STRING [] 0 false [] :=
  c6_get_null_vs_empty [] [] (chars ("x")) rfl

/-- Claim C8. In the connection loop, a parse outcome of bare io.EOF
(end of stream before a tag line) closes the connection with no reply;
every parse error outcome instead sends the "ERR "-prefixed Error value
and leaves the loop running on the rest of the stream. -/
theorem c8_eof_closes_other_errors_reply (st : Store) (s : List Char) :
    (parseRESP s = ParseResult.eof → connStep st s = StepResult.closed) ∧
    (∀ m rest, parseRESP s = ParseResult.err m rest →
      connStep st s =
        StepResult.reply (serializeRESP (errV (chars ("ERR ") ++ m))) st rest) := by
  constructor
  · intro hp
    unfold connStep
    rw [hp]
  · intro m rest hp
    unfold connStep
    rw [hp]

/-- Claim C8, witness: the empty stream closes; the malformed frame
"!\n" draws an Error reply with the connection still open. -/
theorem c8_eof_closes_other_errors_reply_witness :
    connStep [] [] = StepResult.closed ∧
    connStep [] (chars ("!\n")) =
      StepResult.reply
        (serializeRESP (errV (chars ("ERR ") ++ (chars ("unknown RESP type: ") ++ ['!']))))
        [] [] :=
  ⟨(c8_eof_closes_other_errors_reply [] []).1 rfl,
    (c8_eof_closes_other_errors_reply [] (chars ("!\n"))).2
      (chars ("unknown RESP type: ") ++ ['!']) [] rfl⟩

/-- Claim C9. The store writes of handleSet are single atomic updates
under the server mutex, so two concurrent SETs of the same key execute
in one of the two serial orders: afterwards the store maps the key to
exactly one of the two written values in full, and a dispatched GET
observes that value as a non-null BulkString. -/
theorem c9_concurrent_sets_serialize (st : Store) (k v1 v2 : List Char) (order : Bool) :
    ∃ w, (w = v1 ∨ w = v2) ∧
      storeGet
        (if order then
          (processCommand (processCommand st (.mk RESP_ARRAY [] 0 false
              [.mk RESP_BULK_STRING (chars ("SET")) 0 false [],
                .mk RESP_BULK_STRING k 0 false [],
                .mk RESP_BULK_STRING v1 0 false []])).2
            (.mk RESP_ARRAY [] 0 false
              [.mk RESP_BULK_STRING (chars ("SET")) 0 false [],
                .mk RESP_BULK_STRING k 0 false [],
                .mk RESP_BULK_STRING v2 0 false []])).2
        else
          (processCommand (processCommand st (.mk RESP_ARRAY [] 0 false
              [.mk RESP_BULK_STRING (chars ("SET")) 0 false [],
                .mk RESP_BULK_STRING k 0 false [],
                .mk RESP_BULK_STRING v2 0 false []])).2
            (.mk RESP_ARRAY [] 0 false
              [.mk RESP_BULK_STRING (chars ("SET")) 0 false [],
                .mk RESP_BULK_STRING k 0 false [],
                .mk RESP_BULK_STRING v1 0 false []])).2) k = some w ∧
      (processCommand
        (if order then
          (processCommand (processCommand st (.mk RESP_ARRAY [] 0 false
              [.mk RESP_BULK_STRING (chars ("SET")) 0 false [],
                .mk RESP_BULK_STRING k 0 false [],
                .mk RESP_BULK_STRING v1 0 false []])).2
            (.mk RESP_ARRAY [] 0 false
              [.mk RESP_BULK_STRING (chars ("SET")) 0 false [],
                .mk RESP_BULK_STRING k 0 false [],
                .mk RESP_BULK_STRING v2 0 false []])).2
        else
          (processCommand (processCommand st (.mk RESP_ARRAY [] 0 false
              [.mk RESP_BULK_STRING (chars ("SET")) 0 false [],
                .mk RESP_BULK_STRING k 0 false [],
                .mk RESP_BULK_STRING v2 0 false []])).2
            (.mk RESP_ARRAY [] 0 false
              [.mk RESP_BULK_STRING (chars ("SET")) 0 false [],
                .mk RESP_BULK_STRING k 0 false [],
                .mk RESP_BULK_STRING v1 0 false []])).2)
        (.mk RESP_ARRAY [] 0 false
          [.mk RESP_BULK_STRING (chars ("GET")) 0 false [],
            .mk RESP_BULK_STRING k 0 false []])).1 =
        RESPValue.mk RESP_BULK_STRING w 0 false [] := by
  have hset : ∀ (s : Store) (v : List Char),
      (processCommand s (.mk RESP_ARRAY [] 0 false
        [.mk RESP_BULK_STRING (chars ("SET")) 0 false [],
          .mk RESP_BULK_STRING k 0 false [],
          .mk RESP_BULK_STRING v 0 false []])).2 = storeSet s k v :=
    fun s v => rfl
  have bridge : ∀ (s : Store),
      (processCommand s (.mk RESP_ARRAY [] 0 false
          [.mk RESP_BULK_STRING (chars ("GET")) 0 false [],
            .mk RESP_BULK_STRING k 0 false []])).1 =
        (match storeGet s k with
          | none => RESPValue.mk RESP_BULK_STRING [] 0 true []
          | some value => RESPValue.mk RESP_BULK_STRING value 0 false []) :=
    fun s => rfl
  cases order with
  | true =>
    refine ⟨v2, Or.inr rfl, ?_, ?_⟩
    · simp only [if_pos trivial, hset, storeGet_storeSet_same]
    · simp only [if_pos trivial, hset, bridge, storeGet_storeSet_same]
  | false =>
    refine ⟨v1, Or.inl rfl, ?_, ?_⟩
    · simp only [if_neg Bool.false_ne_true, hset, storeGet_storeSet_same]
    · simp only [if_neg Bool.false_ne_true, hset, bridge, storeGet_storeSet_same]

/-- Claim C7, counterexample: the line "+a \r\n" decodes to the
SimpleString "a", not "a ": ParseRESP trims the line with
strings.TrimSpace, which strips trailing spaces as well as the '\r'. -/
theorem c7_trailing_space_not_verbatim :
    parseRESP (chars ("+a \r\n")) =
      .ok (.mk RESP_SIMPLE_STRING (chars ("a")) 0 false []) [] ∧
    chars ("a") ≠ chars ("a ") :=
  ⟨rfl, by decide⟩

/-- Claim C7, amended: for a line with tag '+' or '-', the decoded text
is the remainder of the line with ALL trailing Go whitespace (spaces,
tabs, '\r', ...) stripped, as strings.TrimSpace does, not just a
trailing '\r' before the '\n'. -/
theorem c7_line_payload_amended (text rest : List Char) (h : '\n' ∉ text) :
    parseRESP ((RESP_SIMPLE_STRING :: text) ++ '\n' :: rest) =
      .ok (.mk RESP_SIMPLE_STRING (trimRight text) 0 false []) rest ∧
    parseRESP ((RESP_ERROR :: text) ++ '\n' :: rest) =
      .ok (.mk RESP_ERROR (trimRight text) 0 false []) rest := by
  have hmem : ∀ (c : Char), ¬c = '\n' → ('\n' : Char) ∉ (c :: text) := by
    intro c hc hm
    rcases List.mem_cons.mp hm with e | e
    · exact hc e.symm
    · exact h e
  constructor
  · have e1 : readLine ('+' :: (text ++ '\n' :: rest)) =
        some ('+' :: (text ++ ['\n']), rest) := by
      simpa using readLine_append ('+' :: text) rest (hmem _ (by decide))
    have e2 : trimSpace ('+' :: (text ++ ['\n'])) = '+' :: trimRight text := by
      rw [trimSpace_cons _ _ (by decide), trimRight_append_space _ _ (by decide)]
    show parseRESPF (2 * ((RESP_SIMPLE_STRING :: text) ++ '\n' :: rest).length + 1 + 1)
        ((RESP_SIMPLE_STRING :: text) ++ '\n' :: rest) = _
    simp [parseRESPF, e1, e2, RESP_SIMPLE_STRING, RESP_ERROR, RESP_INTEGER,
      RESP_BULK_STRING, RESP_ARRAY]
  · have e1 : readLine ('-' :: (text ++ '\n' :: rest)) =
        some ('-' :: (text ++ ['\n']), rest) := by
      simpa using readLine_append ('-' :: text) rest (hmem _ (by decide))
    have e2 : trimSpace ('-' :: (text ++ ['\n'])) = '-' :: trimRight text := by
      rw [trimSpace_cons _ _ (by decide), trimRight_append_space _ _ (by decide)]
    show parseRESPF (2 * ((RESP_ERROR :: text) ++ '\n' :: rest).length + 1 + 1)
        ((RESP_ERROR :: text) ++ '\n' :: rest) = _
    simp [parseRESPF, e1, e2, RESP_SIMPLE_STRING, RESP_ERROR, RESP_INTEGER,
      RESP_BULK_STRING, RESP_ARRAY]

/-- Claim C7, witness: the line "+a \r\n" (and "-a \r\n"). -/
theorem c7_line_payload_amended_witness :
    parseRESP ((RESP_SIMPLE_STRING :: chars ("a \r")) ++ '\n' :: []) =
      .ok (.mk RESP_SIMPLE_STRING (trimRight (chars ("a \r"))) 0 false []) [] ∧
    parseRESP ((RESP_ERROR :: chars ("a \r")) ++ '\n' :: []) =
      .ok (.mk RESP_ERROR (trimRight (chars ("a \r"))) 0 false []) [] :=
  c7_line_payload_amended (chars ("a \r")) [] (by decide)

/-- Claim C5, counterexample: after the 3 declared bytes "abc" of
"$3\r\nabcXY\r\n", the terminator read is bufio ReadString('\n'), which
silently consumes the extra bytes "XY\r\n" instead of failing, so the
decode succeeds where the claim demands an error. -/
theorem c5_bulk_junk_before_terminator_accepted :
    parseRESP (chars ("$3\r\nabcXY\r\n")) =
      .ok (.mk RESP_BULK_STRING (chars ("abc")) 0 false []) [] := rfl

/-- Claim C5, amended: after a BulkString header declaring length n,
exactly n payload bytes are read, and then everything up to and
including the NEXT '\n' is consumed and discarded, whatever it is; a
short payload read, or end of stream before such a '\n', is a decode
error. -/
theorem c5_bulk_read_amended (h payload junk short rest : List Char) (n : Nat)
    (hh : '\n' ∉ h)
    (hlen : atoi (trimRight h) = some (n : Int))
    (hp : payload.length = n)
    (hj : '\n' ∉ junk)
    (hs : short.length < n) :
    parseRESP (((RESP_BULK_STRING :: h) ++ ['\r']) ++ '\n' ::
        (payload ++ (junk ++ '\n' :: rest))) =
      .ok (.mk RESP_BULK_STRING payload 0 false []) rest ∧
    parseRESP (((RESP_BULK_STRING :: h) ++ ['\r']) ++ '\n' :: short) =
      .err (chars ("failed to read bulk string: ") ++
        (if short = [] then chars ("EOF") else chars ("unexpected EOF"))) [] ∧
    parseRESP (((RESP_BULK_STRING :: h) ++ ['\r']) ++ '\n' :: (payload ++ junk)) =
      .err (chars ("failed to read bulk string terminator: EOF")) [] := by
  subst hp
  have hna : ('\n' : Char) ∉ (RESP_BULK_STRING :: h) ++ ['\r'] := by
    intro hm
    rcases List.mem_append.mp hm with hm | hm
    · rcases List.mem_cons.mp hm with e | e
      · exact absurd e (by decide)
      · exact hh e
    · exact absurd hm (by decide)
  have e2 : trimSpace ('$' :: (h ++ ['\r', '\n'])) = '$' :: trimRight h := by
    rw [trimSpace_cons _ _ (by decide)]
    have eapp : h ++ ['\r', '\n'] = (h ++ ['\r']) ++ ['\n'] := by simp
    rw [eapp, trimRight_append_space _ _ (by decide),
      trimRight_append_space _ _ (by decide)]
  have hne1 : ¬((payload.length : Int) = -1) := by omega
  have hne2 : ¬((payload.length : Int) < 0) := by omega
  have htn : ((payload.length : Int)).toNat = payload.length := by omega
  refine ⟨?_, ?_, ?_⟩
  · have e1 : readLine ('$' :: (h ++ '\r' :: '\n' :: (payload ++ (junk ++ '\n' :: rest)))) =
        some ('$' :: (h ++ ['\r', '\n']), payload ++ (junk ++ '\n' :: rest)) := by
      simpa using readLine_append (('$' :: h) ++ ['\r'])
        (payload ++ (junk ++ '\n' :: rest)) hna
    have e3 := readLine_append junk rest hj
    show parseRESPF
        (2 * (((RESP_BULK_STRING :: h) ++ ['\r']) ++ '\n' ::
          (payload ++ (junk ++ '\n' :: rest))).length + 1 + 1)
        (((RESP_BULK_STRING :: h) ++ ['\r']) ++ '\n' ::
          (payload ++ (junk ++ '\n' :: rest))) = _
    simp [parseRESPF, e1, e2, e3, hlen, hne1, hne2, htn, readN_exact,
      RESP_SIMPLE_STRING, RESP_ERROR, RESP_INTEGER, RESP_BULK_STRING, RESP_ARRAY]
  · have e1 : readLine ('$' :: (h ++ '\r' :: '\n' :: short)) =
        some ('$' :: (h ++ ['\r', '\n']), short) := by
      simpa using readLine_append (('$' :: h) ++ ['\r']) short hna
    have e4 := readN_short payload.length short hs
    show parseRESPF
        (2 * (((RESP_BULK_STRING :: h) ++ ['\r']) ++ '\n' :: short).length + 1 + 1)
        (((RESP_BULK_STRING :: h) ++ ['\r']) ++ '\n' :: short) = _
    simp [parseRESPF, e1, e2, e4, hlen, hne1, hne2, htn,
      RESP_SIMPLE_STRING, RESP_ERROR, RESP_INTEGER, RESP_BULK_STRING, RESP_ARRAY]
  · have e1 : readLine ('$' :: (h ++ '\r' :: '\n' :: (payload ++ junk))) =
        some ('$' :: (h ++ ['\r', '\n']), payload ++ junk) := by
      simpa using readLine_append (('$' :: h) ++ ['\r']) (payload ++ junk) hna
    have e5 := readLine_eq_none junk hj
    show parseRESPF
        (2 * (((RESP_BULK_STRING :: h) ++ ['\r']) ++ '\n' :: (payload ++ junk)).length + 1 + 1)
        (((RESP_BULK_STRING :: h) ++ ['\r']) ++ '\n' :: (payload ++ junk)) = _
    simp [parseRESPF, e1, e2, e5, hlen, hne1, hne2, htn, readN_exact,
      RESP_SIMPLE_STRING, RESP_ERROR, RESP_INTEGER, RESP_BULK_STRING, RESP_ARRAY]

/-- Claim C5, witness: header "$3", payload "abc", junk "XY" before the
terminator, truncated payload "ab". -/
theorem c5_bulk_read_amended_witness :
    parseRESP (((RESP_BULK_STRING :: chars ("3")) ++ ['\r']) ++ '\n' ::
        (chars ("abc") ++ (chars ("XY") ++ '\n' :: chars ("Q")))) =
      .ok (.mk RESP_BULK_STRING (chars ("abc")) 0 false []) (chars ("Q")) ∧
    parseRESP (((RESP_BULK_STRING :: chars ("3")) ++ ['\r']) ++ '\n' :: chars ("ab")) =
      .err (chars ("failed to read bulk string: ") ++
        (if chars ("ab") = ([] : List Char) then chars ("EOF")
          else chars ("unexpected EOF"))) [] ∧
    parseRESP (((RESP_BULK_STRING :: chars ("3")) ++ ['\r']) ++ '\n' ::
        (chars ("abc") ++ chars ("XY"))) =
      .err (chars ("failed to read bulk string terminator: EOF")) [] :=
  c5_bulk_read_amended (chars ("3")) (chars ("abc")) (chars ("XY")) (chars ("ab"))
    (chars ("Q")) 3 (by decide) (by decide) (by decide) (by decide) (by decide)

/-- Claim C10. Decode is not total: a BulkString or Array header with a
declared length that is negative but not -1 reaches
make([]byte, n) / make([]*RESPValue, n) with n < 0, a Go runtime panic
that crashes the handler, not a decode error. -/
theorem c10_negative_length_panics :
    parseRESP (chars ("$-2\r\n")) = ParseResult.panic ∧
    parseRESP (chars ("*-2\r\n")) = ParseResult.panic :=
  ⟨rfl, rfl⟩

end GoRedis
